import Mathlib

/-!
Verification of the one-sided payment scan engine of tari-transactions-wasm.

The two entry points `scan_output_for_one_sided_payment` (full-wallet scan,
`src/tari_transaction_services/src/scan_outputs.rs`) and
`scan_output_for_one_sided_payment_ledger` (ledger-constrained scan,
`src/tari_transaction_services/src/scan_outputs_ledger.rs`) together with
their verification helpers and the `RecoveredOutputResult` record
(`src/tari_transaction_services/src/lib.rs`) are embedded shallowly.

The cryptographic primitives the scan calls (elliptic-curve key derivation,
Diffie-Hellman, the stealth domain hasher, authenticated decryption,
commitment mask verification, hex encoding, and the serde/borsh boundary)
are external crates, out of scope per the specification; they are embedded
as the fields of a `Crypto` record the scan functions are parameterized by,
so every theorem holds for all primitive behaviours.  Key, hash, secret and
ciphertext values are represented by natural numbers standing for their
canonical encodings; equality on them is the exact equality of canonical
encodings the source uses.

A Rust panic (the `expect` on `PrivateKey::from_uniform_bytes`, and the
`unwrap` on `serde_wasm_bindgen::to_value`) is modelled as `none`: the core
scan functions return `Option RecoveredOutputResult` where `none` marks the
`from_uniform_bytes` panic point, and the `_js` wrappers compose with the
serializer `Crypto.toValue`, whose failure marks the `to_value` panic point.
-/

namespace TariScan

/-- Canonical encoding of a Ristretto secret key (`PrivateKey`). -/
abbrev PrivKey := Nat

/-- Canonical encoding of a Ristretto public key (`PublicKey`). -/
abbrev PubKey := Nat

/-- Canonical encoding of a Diffie-Hellman shared secret (`CommsDHKE`). -/
abbrev DHSecret := Nat

/-- The 64-byte output of the stealth domain hasher
(`DomainSeparatedHash<Blake2b<U64>>`). -/
abbrev Hash64 := Nat

/-- Canonical encoding of an output encryption key. -/
abbrev EncKey := Nat

/-- Canonical encoding of a Pedersen commitment. -/
abbrev Commitment := Nat

/-- Canonical encoding of an `EncryptedData` payload. -/
abbrev EncData := Nat

/-- An opaque JavaScript value produced by the wasm marshalling boundary. -/
abbrev JsVal := Nat

/-- A decoded TariScript opcode.  The scan only distinguishes
`PushPubKey` and `Drop`; every other opcode of `tari_script::Opcode` is
represented by `Other` with its code byte. -/
inductive Opcode where
  | PushPubKey (pk : PubKey)
  | Drop
  | Other (code : Nat)
deriving DecidableEq, Repr

/-- The output features carried by a `TransactionOutput` (only the fields
the scan reads). -/
structure OutputFeatures where
  output_type : Nat
  maturity : Nat
deriving DecidableEq, Repr

/-- A decoded `TransactionOutput` (only the fields the scan reads). -/
structure TransactionOutput where
  script : List Opcode
  sender_offset_public_key : PubKey
  commitment : Commitment
  encrypted_data : EncData
  features : OutputFeatures
deriving DecidableEq, Repr

/-- The input bundle of the full-wallet scan (`ScanOutput` in
`scan_outputs.rs`). -/
structure ScanOutput where
  known_script_keys : List PrivKey
  wallet_sk : PrivKey
  output : TransactionOutput
deriving DecidableEq, Repr

/-- The `minotari_wallet::output_source::OutputSource` variants the scan
produces. -/
inductive OutputSource where
  | OneSided
  | StealthOneSided
deriving DecidableEq, Repr

/-- The `Display` rendering of `OutputSource`. -/
def OutputSource.toStr : OutputSource → String
  | .OneSided => "OneSided"
  | .StealthOneSided => "StealthOneSided"

/-- The `RecoveredOutputResult` record of `lib.rs`: every field is an
`Option`, and `Default` gives the all-`none` record. -/
structure RecoveredOutputResult where
  hash : Option String := none
  output_source : Option String := none
  output_type : Option String := none
  value : Option Nat := none
  spending_key : Option String := none
  script_key : Option String := none
  maturity : Option Nat := none
  error : Option String := none
deriving DecidableEq, Repr

/-- The function `no_match()` of `lib.rs`: the default (all-`none`) record. -/
def no_match : RecoveredOutputResult := {}

/-- The function `scan_error(error)` of `lib.rs`: the default record with only the
`error` field populated. -/
def scan_error (error : String) : RecoveredOutputResult :=
  { error := some error }

/-- The external cryptographic and marshalling primitives the scan calls,
as black boxes (specification, section 6).  `fromSecretKey` is
`PublicKey::from_secret_key`; `dhke` is `CommsDHKE::new`;
`stealthDomainHasher` is `diffie_hellman_stealth_domain_hasher`;
`stealthSpendingKey` is `stealth_address_script_spending_key`;
`fromUniformBytes` is `PrivateKey::from_uniform_bytes` (fallible, the
`expect` call site is the panic point); `addKeys` is scalar addition of
private keys; `sharedSecretToEncKey` is `shared_secret_to_output_encryption_key`;
`decryptData` is `EncryptedData::decrypt_data`; `verifyMask` is
`TransactionOutput::verify_mask` with the default range-proof factory;
`hashOutput` is `output.hash().to_hex()`; `privToHex` is
`PrivateKey::to_hex`; `outputTypeToStr` renders the output type;
`toValue` is `serde_wasm_bindgen::to_value` (fallible, the `unwrap` call
site is the panic point); `privKeyFromHex`, `pubKeyFromHex` and
`borshDeserializeOutput` are the input decoders of the ledger entry
point. -/
structure Crypto where
  fromSecretKey : PrivKey → PubKey
  dhke : PrivKey → PubKey → DHSecret
  stealthDomainHasher : PrivKey → PubKey → Hash64
  stealthSpendingKey : Hash64 → PubKey → PubKey
  fromUniformBytes : Hash64 → Option PrivKey
  addKeys : PrivKey → PrivKey → PrivKey
  sharedSecretToEncKey : DHSecret → Except String EncKey
  decryptData : EncKey → Commitment → EncData → Except String (Nat × PrivKey)
  verifyMask : Commitment → PrivKey → Nat → Except String Bool
  hashOutput : TransactionOutput → String
  privToHex : PrivKey → String
  outputTypeToStr : Nat → String
  toValue : RecoveredOutputResult → Option JsVal
  privKeyFromHex : String → Except String PrivKey
  pubKeyFromHex : String → Except String PubKey
  borshDeserializeOutput : String → Except String TransactionOutput

/-- The function `verify_onesided_output` of `scan_outputs.rs` (lines 112-149): derive
the encryption key from the shared secret (derivation failure is an
error), authenticated-decrypt the encrypted data (failure is no-match),
verify the commitment mask (primitive error is an error, `false` is
no-match), and on success populate the result record with `maturity`
absent and the script private key rendered in hex. -/
def verify_onesided_output (c : Crypto) (output : TransactionOutput)
    (output_source : OutputSource) (script_private_key : PrivKey)
    (shared_secret : DHSecret) : RecoveredOutputResult :=
  match c.sharedSecretToEncKey shared_secret with
  | .error e => scan_error ("Could not derive encryption key: " ++ e)
  | .ok encryption_key =>
    match c.decryptData encryption_key output.commitment output.encrypted_data with
    | .ok (committed_value, spending_key) =>
      match c.verifyMask output.commitment spending_key committed_value with
      | .ok verified =>
        if verified then
          { hash := some (c.hashOutput output),
            output_source := some output_source.toStr,
            output_type := some (c.outputTypeToStr output.features.output_type),
            value := some committed_value,
            spending_key := some (c.privToHex spending_key),
            script_key := some (c.privToHex script_private_key),
            error := none,
            maturity := none }
        else no_match
      | .error e => scan_error ("Could not verify output: " ++ e)
    | .error _ => no_match

/-- The function `scan_output_for_one_sided_payment` of `scan_outputs.rs` (lines 43-110).
The serde deserialization of the `JsValue` argument is modelled by the
`Except String ScanOutput` argument.  `none` marks the
`from_uniform_bytes` panic point. -/
def scan_output_for_one_sided_payment (c : Crypto)
    (val : Except String ScanOutput) : Option RecoveredOutputResult :=
  match val with
  | .error e => some (scan_error ("scan_output: " ++ e))
  | .ok scan_output =>
    let known_keys : List (PubKey × PrivKey) :=
      scan_output.known_script_keys.map (fun script_key =>
        (c.fromSecretKey script_key, script_key))
    let wallet_sk := scan_output.wallet_sk
    let wallet_pk := c.fromSecretKey wallet_sk
    let output := scan_output.output
    match output.script with
    | [Opcode.PushPubKey scanned_pk] =>
      match known_keys.find? (fun x => x.fst == scanned_pk) with
      | none => some no_match
      | some matched_key =>
        some (verify_onesided_output c output OutputSource.OneSided
          matched_key.snd (c.dhke matched_key.snd output.sender_offset_public_key))
    | [Opcode.PushPubKey nonce, Opcode.Drop, Opcode.PushPubKey scanned_pk] =>
      let stealth_address_hasher := c.stealthDomainHasher wallet_sk nonce
      let script_spending_key := c.stealthSpendingKey stealth_address_hasher wallet_pk
      if script_spending_key ≠ scanned_pk then some no_match
      else
        match c.fromUniformBytes stealth_address_hasher with
        | none => none
        | some stealth_address_offset =>
          let script_private_key := c.addKeys wallet_sk stealth_address_offset
          some (verify_onesided_output c output OutputSource.StealthOneSided
            script_private_key (c.dhke wallet_sk output.sender_offset_public_key))
    | _ => some no_match

/-- The full scan composed with the wasm serialization of the result
(`serde_wasm_bindgen::to_value(..).unwrap()`): `none` is a panic of
either `from_uniform_bytes` or `to_value`. -/
def scan_output_for_one_sided_payment_js (c : Crypto)
    (val : Except String ScanOutput) : Option JsVal :=
  (scan_output_for_one_sided_payment c val).bind c.toValue

/-- The function `verify_onesided_output_ledger` of `scan_outputs_ledger.rs`
(lines 67-103): as `verify_onesided_output`, but no script private key is
ever reported (`script_key := none`) and the output's features maturity
is reported on success. -/
def verify_onesided_output_ledger (c : Crypto) (output : TransactionOutput)
    (output_source : OutputSource) (shared_secret : DHSecret) :
    RecoveredOutputResult :=
  match c.sharedSecretToEncKey shared_secret with
  | .error e => scan_error ("Could not derive encryption key: " ++ e)
  | .ok encryption_key =>
    match c.decryptData encryption_key output.commitment output.encrypted_data with
    | .ok (committed_value, spending_key) =>
      match c.verifyMask output.commitment spending_key committed_value with
      | .ok verified =>
        if verified then
          { hash := some (c.hashOutput output),
            output_source := some output_source.toStr,
            output_type := some (c.outputTypeToStr output.features.output_type),
            value := some committed_value,
            spending_key := some (c.privToHex spending_key),
            script_key := none,
            maturity := some output.features.maturity,
            error := none }
        else no_match
      | .error e => scan_error ("Could not verify output: " ++ e)
    | .error _ => no_match

/-- The function `scan_output_for_one_sided_payment_ledger` of `scan_outputs_ledger.rs`
(lines 29-65): decode the view private key, the spend public key and the
borsh-serialized output (each failure is an error result), then match only
the stealth (Pattern B) script shape. -/
def scan_output_for_one_sided_payment_ledger (c : Crypto)
    (wallet_view_sk wallet_spend_pk output_str : String) :
    RecoveredOutputResult :=
  match c.privKeyFromHex wallet_view_sk with
  | .error e => scan_error ("wallet_sk: " ++ e)
  | .ok wallet_view_sk =>
    match c.pubKeyFromHex wallet_spend_pk with
    | .error e => scan_error ("wallet_sk: " ++ e)
    | .ok wallet_spend_pk =>
      match c.borshDeserializeOutput output_str with
      | .error e => scan_error e
      | .ok output =>
        match output.script with
        | [Opcode.PushPubKey nonce, Opcode.Drop, Opcode.PushPubKey scanned_pk] =>
          let stealth_address_hasher := c.stealthDomainHasher wallet_view_sk nonce
          let script_spending_key :=
            c.stealthSpendingKey stealth_address_hasher wallet_spend_pk
          if script_spending_key ≠ scanned_pk then no_match
          else
            verify_onesided_output_ledger c output OutputSource.StealthOneSided
              (c.dhke wallet_view_sk output.sender_offset_public_key)
        | _ => no_match

/-- The ledger scan composed with the wasm serialization of the result:
`none` is a panic of `to_value`. -/
def scan_output_for_one_sided_payment_ledger_js (c : Crypto)
    (wallet_view_sk wallet_spend_pk output_str : String) : Option JsVal :=
  c.toValue
    (scan_output_for_one_sided_payment_ledger c wallet_view_sk wallet_spend_pk output_str)

/-- A result in the successful-recovery state: the error field is absent
and the recovery fields common to both entry points are populated. -/
def isSuccess (r : RecoveredOutputResult) : Prop :=
  r.error = none ∧ r.hash.isSome ∧ r.output_source.isSome ∧
  r.output_type.isSome ∧ r.value.isSome ∧ r.spending_key.isSome

/-- A result in the error state: the error field is populated and every
recovery field is absent. -/
def isError (r : RecoveredOutputResult) : Prop :=
  r.error.isSome ∧ r.hash = none ∧ r.output_source = none ∧
  r.output_type = none ∧ r.value = none ∧ r.spending_key = none ∧
  r.script_key = none ∧ r.maturity = none

/-- A result in the no-match state: every field is absent. -/
def isNoMatch (r : RecoveredOutputResult) : Prop := r = no_match

/-- Exactly one of the three result states holds. -/
def exactlyOneState (r : RecoveredOutputResult) : Prop :=
  (isSuccess r ∧ ¬ isError r ∧ ¬ isNoMatch r) ∨
  (¬ isSuccess r ∧ isError r ∧ ¬ isNoMatch r) ∨
  (¬ isSuccess r ∧ ¬ isError r ∧ isNoMatch r)

/-! Concrete instantiations of the primitive record and sample inputs,
used to evaluate the embedded scan functions on closed inputs. -/

/-- A sample output with a Pattern A (single push-public-key) script. -/
def outA : TransactionOutput :=
  { script := [Opcode.PushPubKey 105],
    sender_offset_public_key := 7,
    commitment := 3,
    encrypted_data := 9,
    features := { output_type := 0, maturity := 42 } }

/-- A sample output with a Pattern B (stealth) script whose embedded key
matches the derivation for `testCrypto` with wallet secret key 4. -/
def outB : TransactionOutput :=
  { script := [Opcode.PushPubKey 2, Opcode.Drop, Opcode.PushPubKey 146],
    sender_offset_public_key := 7,
    commitment := 3,
    encrypted_data := 9,
    features := { output_type := 0, maturity := 42 } }

/-- A sample output with a Pattern B script whose embedded key does not
match the derivation for `testCrypto` with wallet secret key 4. -/
def outBmm : TransactionOutput :=
  { script := [Opcode.PushPubKey 2, Opcode.Drop, Opcode.PushPubKey 147],
    sender_offset_public_key := 7,
    commitment := 3,
    encrypted_data := 9,
    features := { output_type := 0, maturity := 42 } }

/-- A sample Pattern B output matching the ledger derivation for
`testCrypto` with view key 1 and spend public key 1. -/
def outL : TransactionOutput :=
  { script := [Opcode.PushPubKey 2, Opcode.Drop, Opcode.PushPubKey 13],
    sender_offset_public_key := 7,
    commitment := 3,
    encrypted_data := 9,
    features := { output_type := 0, maturity := 42 } }

/-- A sample output with an empty script. -/
def outEmpty : TransactionOutput :=
  { script := [],
    sender_offset_public_key := 0,
    commitment := 0,
    encrypted_data := 0,
    features := { output_type := 0, maturity := 0 } }

/-- A concrete primitive record on which every primitive succeeds. -/
def testCrypto : Crypto :=
  { fromSecretKey := fun sk => sk + 100,
    dhke := fun sk pk => sk * 1000 + pk,
    stealthDomainHasher := fun sk n => sk * 10 + n,
    stealthSpendingKey := fun h pk => h + pk,
    fromUniformBytes := fun h => some (h + 1),
    addKeys := fun a b => a + b,
    sharedSecretToEncKey := fun s => .ok s,
    decryptData := fun k cm ed => .ok (ed, k + cm),
    verifyMask := fun _ _ _ => .ok true,
    hashOutput := fun _ => "h",
    privToHex := fun k => toString k,
    outputTypeToStr := fun n => toString n,
    toValue := fun _ => some 0,
    privKeyFromHex := fun s => .ok s.length,
    pubKeyFromHex := fun s => .ok s.length,
    borshDeserializeOutput := fun s =>
      if s = "A" then .ok outA else if s = "L" then .ok outL
      else .error ("borsh") }

/-- A primitive record exercising the failure branches of the recovery
stage, selected by the shared-secret and plaintext values. -/
def testCrypto3 : Crypto :=
  { testCrypto with
    sharedSecretToEncKey := fun s => if s = 0 then .error ("ek") else .ok s,
    decryptData := fun k cm ed =>
      if k = 1 then .error ("dec") else .ok (ed, k + cm),
    verifyMask := fun _ _ v =>
      if v = 5 then .ok false else if v = 6 then .error ("vm") else .ok true }

/-- A sample output whose decrypted value triggers a `false` mask check
under `testCrypto3`. -/
def out3 : TransactionOutput :=
  { script := [],
    sender_offset_public_key := 0,
    commitment := 3,
    encrypted_data := 5,
    features := { output_type := 0, maturity := 0 } }

/-- A sample output whose decrypted value triggers a mask-check primitive
error under `testCrypto3`. -/
def out3b : TransactionOutput :=
  { script := [],
    sender_offset_public_key := 0,
    commitment := 3,
    encrypted_data := 6,
    features := { output_type := 0, maturity := 0 } }

/-- Full-scan input: Pattern A output, second known key matches. -/
def soA : ScanOutput :=
  { known_script_keys := [9, 5], wallet_sk := 4, output := outA }

/-- Full-scan input: Pattern A output, no known key matches. -/
def soANone : ScanOutput :=
  { known_script_keys := [9], wallet_sk := 4, output := outA }

/-- Full-scan input: matching Pattern B output. -/
def soB : ScanOutput :=
  { known_script_keys := [], wallet_sk := 4, output := outB }

/-- Full-scan input: mismatching Pattern B output. -/
def soBmm : ScanOutput :=
  { known_script_keys := [], wallet_sk := 4, output := outBmm }

/-- Full-scan input: empty script. -/
def soEmpty : ScanOutput :=
  { known_script_keys := [], wallet_sk := 4, output := outEmpty }

theorem exactlyOneState_no_match : exactlyOneState no_match := by
  refine Or.inr (Or.inr ⟨?_, ?_, rfl⟩) <;> simp [isSuccess, isError, no_match]

theorem exactlyOneState_scan_error (e : String) :
    exactlyOneState (scan_error e) := by
  refine Or.inr (Or.inl ⟨?_, ?_, ?_⟩)
  · simp [isSuccess, scan_error]
  · simp [isError, scan_error]
  · intro h
    have := congrArg RecoveredOutputResult.error h
    simp [scan_error, no_match] at this

theorem exactlyOneState_success (r : RecoveredOutputResult)
    (h : isSuccess r) : exactlyOneState r := by
  refine Or.inl ⟨h, ?_, ?_⟩
  · intro h2
    have h3 := h2.1
    rw [h.1] at h3
    simp at h3
  · intro h2
    rw [isNoMatch] at h2
    have := h.2.2.2.2.1
    rw [h2] at this
    simp [no_match] at this

/-- Every result of `verify_onesided_output` is a no-match, an error, or a
success whose script key field is the hex of the passed script private key
and whose maturity field is absent. -/
theorem verify_onesided_output_shapes (c : Crypto) (out : TransactionOutput)
    (src : OutputSource) (k : PrivKey) (s : DHSecret) :
    verify_onesided_output c out src k s = no_match ∨
    (∃ e, verify_onesided_output c out src k s = scan_error e) ∨
    (isSuccess (verify_onesided_output c out src k s) ∧
     (verify_onesided_output c out src k s).script_key = some (c.privToHex k) ∧
     (verify_onesided_output c out src k s).maturity = none) := by
  unfold verify_onesided_output
  split
  · exact Or.inr (Or.inl ⟨_, rfl⟩)
  · split
    · split
      · split
        · exact Or.inr (Or.inr ⟨by simp [isSuccess], rfl, rfl⟩)
        · exact Or.inl rfl
      · exact Or.inr (Or.inl ⟨_, rfl⟩)
    · exact Or.inl rfl

/-- The maturity field of a `verify_onesided_output` result is absent on
every path. -/
theorem verify_onesided_output_maturity (c : Crypto)
    (out : TransactionOutput) (src : OutputSource) (k : PrivKey)
    (s : DHSecret) : (verify_onesided_output c out src k s).maturity = none := by
  unfold verify_onesided_output
  split
  · rfl
  · split
    · split
      · split <;> rfl
      · rfl
    · rfl

/-- Every result of `verify_onesided_output_ledger` is a no-match, an
error, or a success whose script key field is absent and whose maturity
field is the scanned output's features maturity. -/
theorem verify_onesided_output_ledger_shapes (c : Crypto)
    (out : TransactionOutput) (src : OutputSource) (s : DHSecret) :
    verify_onesided_output_ledger c out src s = no_match ∨
    (∃ e, verify_onesided_output_ledger c out src s = scan_error e) ∨
    (isSuccess (verify_onesided_output_ledger c out src s) ∧
     (verify_onesided_output_ledger c out src s).script_key = none ∧
     (verify_onesided_output_ledger c out src s).maturity =
       some out.features.maturity) := by
  unfold verify_onesided_output_ledger
  split
  · exact Or.inr (Or.inl ⟨_, rfl⟩)
  · split
    · split
      · split
        · exact Or.inr (Or.inr ⟨by simp [isSuccess], rfl, rfl⟩)
        · exact Or.inl rfl
      · exact Or.inr (Or.inl ⟨_, rfl⟩)
    · exact Or.inl rfl

/-- The script-key field of a `verify_onesided_output_ledger` result is
absent on every path. -/
theorem verify_onesided_output_ledger_script_key (c : Crypto)
    (out : TransactionOutput) (src : OutputSource) (s : DHSecret) :
    (verify_onesided_output_ledger c out src s).script_key = none := by
  unfold verify_onesided_output_ledger
  split
  · rfl
  · split
    · split
      · split <;> rfl
      · rfl
    · rfl

theorem shapes_of_eq_verify (c : Crypto) (out : TransactionOutput)
    (src : OutputSource) (k : PrivKey) (s : DHSecret)
    (r : RecoveredOutputResult) (h : r = verify_onesided_output c out src k s) :
    r = no_match ∨ (∃ e, r = scan_error e) ∨
    (isSuccess r ∧ r.maturity = none) := by
  rw [h]
  rcases verify_onesided_output_shapes c out src k s with h1 | h1 | h1
  · exact Or.inl h1
  · exact Or.inr (Or.inl h1)
  · exact Or.inr (Or.inr ⟨h1.1, h1.2.2⟩)

/-- Every result of the full-wallet scan is a no-match, an error, or a
success; its maturity field is absent in every case. -/
theorem scan_full_result_shapes (c : Crypto) (val : Except String ScanOutput)
    (r : RecoveredOutputResult)
    (h : scan_output_for_one_sided_payment c val = some r) :
    r = no_match ∨ (∃ e, r = scan_error e) ∨
    (isSuccess r ∧ r.maturity = none) := by
  unfold scan_output_for_one_sided_payment at h
  split at h
  · exact Or.inr (Or.inl ⟨_, (Option.some_inj.mp h).symm⟩)
  · dsimp only at h
    split at h
    · split at h
      · exact Or.inl (Option.some_inj.mp h).symm
      · exact shapes_of_eq_verify _ _ _ _ _ _ (Option.some_inj.mp h).symm
    · split at h
      · exact Or.inl (Option.some_inj.mp h).symm
      · split at h
        · exact absurd h (by simp)
        · exact shapes_of_eq_verify _ _ _ _ _ _ (Option.some_inj.mp h).symm
    · exact Or.inl (Option.some_inj.mp h).symm

theorem shapes_of_eq_verify_ledger (c : Crypto) (out : TransactionOutput)
    (src : OutputSource) (s : DHSecret) (r : RecoveredOutputResult)
    (h : r = verify_onesided_output_ledger c out src s) :
    r = no_match ∨ (∃ e, r = scan_error e) ∨
    (isSuccess r ∧ r.script_key = none) := by
  rw [h]
  rcases verify_onesided_output_ledger_shapes c out src s with h1 | h1 | h1
  · exact Or.inl h1
  · exact Or.inr (Or.inl h1)
  · exact Or.inr (Or.inr ⟨h1.1, h1.2.1⟩)

/-- Every result of the ledger-constrained scan is a no-match, an error,
or a success; its script-key field is absent in every case. -/
theorem scan_ledger_result_shapes (c : Crypto)
    (wallet_view_sk wallet_spend_pk output_str : String) :
    scan_output_for_one_sided_payment_ledger c wallet_view_sk wallet_spend_pk
      output_str = no_match ∨
    (∃ e, scan_output_for_one_sided_payment_ledger c wallet_view_sk
      wallet_spend_pk output_str = scan_error e) ∨
    (isSuccess (scan_output_for_one_sided_payment_ledger c wallet_view_sk
       wallet_spend_pk output_str) ∧
     (scan_output_for_one_sided_payment_ledger c wallet_view_sk
       wallet_spend_pk output_str).script_key = none) := by
  unfold scan_output_for_one_sided_payment_ledger
  split
  · exact Or.inr (Or.inl ⟨_, rfl⟩)
  · split
    · exact Or.inr (Or.inl ⟨_, rfl⟩)
    · split
      · exact Or.inr (Or.inl ⟨_, rfl⟩)
      · split
        · dsimp only
          split
          · exact Or.inl rfl
          · exact shapes_of_eq_verify_ledger _ _ _ _ _ rfl
        · exact Or.inl rfl

theorem find_known_keys_none (c : Crypto) (p : PubKey) (ks : List PrivKey)
    (h : ∀ k ∈ ks, c.fromSecretKey k ≠ p) :
    (ks.map (fun k => (c.fromSecretKey k, k))).find? (fun x => x.fst == p) =
      none := by
  rw [List.find?_eq_none]
  intro x hx
  simp only [List.mem_map] at hx
  obtain ⟨k, hk, rfl⟩ := hx
  simpa using h k hk

theorem find_known_keys_first (c : Crypto) (p : PubKey) (l1 l2 : List PrivKey)
    (sk : PrivKey) (h1 : ∀ k ∈ l1, c.fromSecretKey k ≠ p)
    (h2 : c.fromSecretKey sk = p) :
    ((l1 ++ sk :: l2).map (fun k => (c.fromSecretKey k, k))).find?
      (fun x => x.fst == p) = some (c.fromSecretKey sk, sk) := by
  induction l1 with
  | nil =>
    simp only [List.nil_append, List.map_cons]
    exact List.find?_cons_of_pos _ (by simpa using h2)
  | cons a as ih =>
    have ha : c.fromSecretKey a ≠ p := h1 a (List.mem_cons_self a as)
    simp only [List.cons_append, List.map_cons]
    rw [List.find?_cons_of_neg _ (by simpa using ha)]
    exact ih (fun k hk => h1 k (List.mem_cons_of_mem a hk))

/-- Claim C1: in the full-wallet scan's Pattern B path, the candidate
spend public key is derived from the domain-separated hash of the wallet
private key and the script's nonce; on mismatch with the script's
embedded key the scan is `no_match` (for every primitive record, so no
offset conversion and no decryption influences the result), and on
equality the recoverable script private key passed to the recovery stage
is the wallet secret key plus the hash interpreted as a scalar. -/
theorem pattern_b_gate_full_scan (c : Crypto) (so : ScanOutput)
    (nonce scanned_pk : PubKey)
    (hs : so.output.script =
      [Opcode.PushPubKey nonce, Opcode.Drop, Opcode.PushPubKey scanned_pk]) :
    (c.stealthSpendingKey (c.stealthDomainHasher so.wallet_sk nonce)
        (c.fromSecretKey so.wallet_sk) ≠ scanned_pk →
      scan_output_for_one_sided_payment c (.ok so) = some no_match) ∧
    (c.stealthSpendingKey (c.stealthDomainHasher so.wallet_sk nonce)
        (c.fromSecretKey so.wallet_sk) = scanned_pk →
      ∀ off, c.fromUniformBytes (c.stealthDomainHasher so.wallet_sk nonce) =
        some off →
      scan_output_for_one_sided_payment c (.ok so) =
        some (verify_onesided_output c so.output OutputSource.StealthOneSided
          (c.addKeys so.wallet_sk off)
          (c.dhke so.wallet_sk so.output.sender_offset_public_key))) := by
  constructor
  · intro hne
    unfold scan_output_for_one_sided_payment
    dsimp only
    rw [hs]
    simp [hne]
  · intro heq off hoff
    unfold scan_output_for_one_sided_payment
    dsimp only
    rw [hs]
    simp [heq, hoff]

theorem pattern_b_gate_full_scan_witness :
    scan_output_for_one_sided_payment testCrypto (.ok soBmm) =
      some no_match ∧
    scan_output_for_one_sided_payment testCrypto (.ok soB) =
      some (verify_onesided_output testCrypto soB.output
        OutputSource.StealthOneSided (testCrypto.addKeys soB.wallet_sk 43)
        (testCrypto.dhke soB.wallet_sk
          soB.output.sender_offset_public_key)) :=
  ⟨(pattern_b_gate_full_scan testCrypto soBmm 2 147 rfl).1 (by decide),
   (pattern_b_gate_full_scan testCrypto soB 2 146 rfl).2 (by decide) 43 rfl⟩

/-- Claim C2: in the full-wallet scan's Pattern A path, recovery proceeds
exactly when the embedded public key equals the public key of some entry
of the caller-supplied known script key list; with no match the scan is
`no_match`, and with a match the first matching entry in the supplied
ordering provides the script private key and the Diffie-Hellman input. -/
theorem pattern_a_known_keys (c : Crypto) (so : ScanOutput)
    (scanned_pk : PubKey)
    (hs : so.output.script = [Opcode.PushPubKey scanned_pk]) :
    ((∀ k ∈ so.known_script_keys, c.fromSecretKey k ≠ scanned_pk) →
      scan_output_for_one_sided_payment c (.ok so) = some no_match) ∧
    (∀ l1 sk l2, so.known_script_keys = l1 ++ sk :: l2 →
      (∀ k ∈ l1, c.fromSecretKey k ≠ scanned_pk) →
      c.fromSecretKey sk = scanned_pk →
      scan_output_for_one_sided_payment c (.ok so) =
        some (verify_onesided_output c so.output OutputSource.OneSided sk
          (c.dhke sk so.output.sender_offset_public_key))) := by
  constructor
  · intro hn
    unfold scan_output_for_one_sided_payment
    dsimp only
    rw [hs]
    dsimp only
    rw [find_known_keys_none c scanned_pk _ hn]
  · intro l1 sk l2 hk h1 h2
    unfold scan_output_for_one_sided_payment
    dsimp only
    rw [hs]
    dsimp only
    rw [hk, find_known_keys_first c scanned_pk l1 l2 sk h1 h2]

theorem pattern_a_known_keys_witness :
    scan_output_for_one_sided_payment testCrypto (.ok soANone) =
      some no_match ∧
    scan_output_for_one_sided_payment testCrypto (.ok soA) =
      some (verify_onesided_output testCrypto soA.output
        OutputSource.OneSided 5
        (testCrypto.dhke 5 soA.output.sender_offset_public_key)) :=
  ⟨(pattern_a_known_keys testCrypto soANone 105 rfl).1 (by decide),
   (pattern_a_known_keys testCrypto soA 105 rfl).2 [9] 5 [] rfl
     (by decide) rfl⟩

/-- Claim C3: in the recovery stage of both entry points, a failure to
derive the encryption key from the shared secret is an `Error` result;
authenticated-decryption failure is `no_match`; the mask-verification
primitive returning `false` is `no_match`; and the mask-verification
primitive itself erroring is an `Error` result. -/
theorem recovery_failure_semantics (c : Crypto) (out : TransactionOutput)
    (src : OutputSource) (k : PrivKey) (s : DHSecret) :
    (∀ e, c.sharedSecretToEncKey s = .error e →
      verify_onesided_output c out src k s =
        scan_error ("Could not derive encryption key: " ++ e) ∧
      verify_onesided_output_ledger c out src s =
        scan_error ("Could not derive encryption key: " ++ e)) ∧
    (∀ ek, c.sharedSecretToEncKey s = .ok ek →
      (∀ e, c.decryptData ek out.commitment out.encrypted_data = .error e →
        verify_onesided_output c out src k s = no_match ∧
        verify_onesided_output_ledger c out src s = no_match) ∧
      (∀ v sk, c.decryptData ek out.commitment out.encrypted_data =
          .ok (v, sk) →
        (c.verifyMask out.commitment sk v = .ok false →
          verify_onesided_output c out src k s = no_match ∧
          verify_onesided_output_ledger c out src s = no_match) ∧
        (∀ e, c.verifyMask out.commitment sk v = .error e →
          verify_onesided_output c out src k s =
            scan_error ("Could not verify output: " ++ e) ∧
          verify_onesided_output_ledger c out src s =
            scan_error ("Could not verify output: " ++ e)))) := by
  constructor
  · intro e he
    constructor
    · unfold verify_onesided_output
      simp [he]
    · unfold verify_onesided_output_ledger
      simp [he]
  · intro ek hek
    constructor
    · intro e he
      constructor
      · unfold verify_onesided_output
        simp [hek, he]
      · unfold verify_onesided_output_ledger
        simp [hek, he]
    · intro v sk hd
      constructor
      · intro hm
        constructor
        · unfold verify_onesided_output
          simp [hek, hd, hm]
        · unfold verify_onesided_output_ledger
          simp [hek, hd, hm]
      · intro e hm
        constructor
        · unfold verify_onesided_output
          simp [hek, hd, hm]
        · unfold verify_onesided_output_ledger
          simp [hek, hd, hm]

theorem recovery_failure_semantics_witness :
    verify_onesided_output testCrypto3 out3 OutputSource.OneSided 1 0 =
      scan_error ("Could not derive encryption key: " ++ "ek") ∧
    verify_onesided_output testCrypto3 out3 OutputSource.OneSided 1 1 =
      no_match ∧
    verify_onesided_output testCrypto3 out3 OutputSource.OneSided 1 2 =
      no_match ∧
    verify_onesided_output testCrypto3 out3b OutputSource.OneSided 1 2 =
      scan_error ("Could not verify output: " ++ "vm") :=
  ⟨((recovery_failure_semantics testCrypto3 out3 OutputSource.OneSided 1 0).1
      ("ek") rfl).1,
   (((recovery_failure_semantics testCrypto3 out3 OutputSource.OneSided 1 1).2
      1 rfl).1 ("dec") rfl).1,
   ((((recovery_failure_semantics testCrypto3 out3 OutputSource.OneSided 1 2).2
      2 rfl).2 5 5 rfl).1 rfl).1,
   ((((recovery_failure_semantics testCrypto3 out3b OutputSource.OneSided 1 2).2
      2 rfl).2 6 5 rfl).2 ("vm") rfl).1⟩

/-- Claim C4: a decoded script that is neither exactly one push-public-key
opcode nor exactly the push-public-key, drop, push-public-key sequence —
including empty, truncated, or extended scripts — yields `no_match`, not
an error, in both entry points. -/
theorem unrecognized_script_no_match (c : Crypto) :
    (∀ so : ScanOutput,
      (∀ p, so.output.script ≠ [Opcode.PushPubKey p]) →
      (∀ n p, so.output.script ≠
        [Opcode.PushPubKey n, Opcode.Drop, Opcode.PushPubKey p]) →
      scan_output_for_one_sided_payment c (.ok so) = some no_match) ∧
    (∀ s1 s2 s3 vk pk out, c.privKeyFromHex s1 = .ok vk →
      c.pubKeyFromHex s2 = .ok pk →
      c.borshDeserializeOutput s3 = .ok out →
      (∀ n p, out.script ≠
        [Opcode.PushPubKey n, Opcode.Drop, Opcode.PushPubKey p]) →
      scan_output_for_one_sided_payment_ledger c s1 s2 s3 = no_match) := by
  constructor
  · intro so h1 h2
    unfold scan_output_for_one_sided_payment
    dsimp only
    split
    · rename_i heq
      exact absurd heq (h1 _)
    · rename_i heq
      exact absurd heq (h2 _ _)
    · rfl
  · intro s1 s2 s3 vk pk out hv hp hb h2
    unfold scan_output_for_one_sided_payment_ledger
    simp only [hv, hp, hb]

theorem unrecognized_script_no_match_witness :
    scan_output_for_one_sided_payment testCrypto (.ok soEmpty) =
      some no_match ∧
    scan_output_for_one_sided_payment_ledger testCrypto ("v") "p" "A" =
      no_match :=
  ⟨(unrecognized_script_no_match testCrypto).1 soEmpty
     (by intro p h; simp [soEmpty, outEmpty] at h)
     (by intro n p h; simp [soEmpty, outEmpty] at h),
   (unrecognized_script_no_match testCrypto).2 ("v") "p" "A" 1 1 outA rfl rfl
     rfl (by intro n p h; simp [outA] at h)⟩

/-- Claim C5: a scan that terminates in no-match or error contains no
secret key material — the spending-key and script-key fields are absent,
and every recovery field of the result is absent, in both entry points. -/
theorem no_key_material_on_failure (c : Crypto)
    (val : Except String ScanOutput) (s1 s2 s3 : String) :
    (∀ r, scan_output_for_one_sided_payment c val = some r →
      r = no_match ∨ r.error.isSome →
      r.spending_key = none ∧ r.script_key = none ∧ r.hash = none ∧
      r.value = none ∧ r.output_source = none ∧ r.output_type = none ∧
      r.maturity = none) ∧
    (∀ r, scan_output_for_one_sided_payment_ledger c s1 s2 s3 = r →
      r = no_match ∨ r.error.isSome →
      r.spending_key = none ∧ r.script_key = none ∧ r.hash = none ∧
      r.value = none ∧ r.output_source = none ∧ r.output_type = none ∧
      r.maturity = none) := by
  constructor
  · intro r hr hcond
    rcases hcond with hnm | herr
    · subst hnm
      exact ⟨rfl, rfl, rfl, rfl, rfl, rfl, rfl⟩
    · rcases scan_full_result_shapes c val r hr with h | ⟨e, h⟩ | ⟨hs, _⟩
      · subst h
        simp [no_match] at herr
      · subst h
        exact ⟨rfl, rfl, rfl, rfl, rfl, rfl, rfl⟩
      · rw [hs.1] at herr
        simp at herr
  · intro r hr hcond
    rcases hcond with hnm | herr
    · subst hnm
      exact ⟨rfl, rfl, rfl, rfl, rfl, rfl, rfl⟩
    · rcases scan_ledger_result_shapes c s1 s2 s3 with h | ⟨e, h⟩ | ⟨hs, _⟩ <;>
        rw [← hr] at herr ⊢
      · rw [h] at herr
        simp [no_match] at herr
      · rw [h]
        exact ⟨rfl, rfl, rfl, rfl, rfl, rfl, rfl⟩
      · rw [hs.1] at herr
        simp at herr

theorem no_key_material_on_failure_witness :
    no_match.spending_key = none ∧ no_match.script_key = none ∧
    no_match.hash = none ∧ no_match.value = none ∧
    no_match.output_source = none ∧ no_match.output_type = none ∧
    no_match.maturity = none :=
  (no_key_material_on_failure testCrypto (.ok soEmpty) ("v") "p" "A").1
    no_match rfl (Or.inl rfl)

/-- Claim C6: every result of either entry point is in exactly one of the
three mutually exclusive states: successful recovery (recovery fields
populated, error absent), error (error populated, recovery fields
absent), or no-match (every field absent). -/
theorem result_three_states (c : Crypto) (val : Except String ScanOutput)
    (s1 s2 s3 : String) :
    (∀ r, scan_output_for_one_sided_payment c val = some r →
      exactlyOneState r) ∧
    exactlyOneState (scan_output_for_one_sided_payment_ledger c s1 s2 s3) := by
  constructor
  · intro r hr
    rcases scan_full_result_shapes c val r hr with h | ⟨e, h⟩ | ⟨hs, _⟩
    · rw [h]
      exact exactlyOneState_no_match
    · rw [h]
      exact exactlyOneState_scan_error e
    · exact exactlyOneState_success r hs
  · rcases scan_ledger_result_shapes c s1 s2 s3 with h | ⟨e, h⟩ | ⟨hs, _⟩
    · rw [h]
      exact exactlyOneState_no_match
    · rw [h]
      exact exactlyOneState_scan_error e
    · exact exactlyOneState_success _ hs

theorem result_three_states_witness :
    exactlyOneState no_match ∧
    exactlyOneState
      (scan_output_for_one_sided_payment_ledger testCrypto ("v") "p" "L") :=
  ⟨(result_three_states testCrypto (.ok soEmpty) ("v") "p" "L").1
     no_match rfl,
   (result_three_states testCrypto (.ok soEmpty) ("v") "p" "L").2⟩

/-- Claim C7: the ledger-constrained entry point supports only Pattern B —
a Pattern A script yields `no_match` — and its result never contains a
recovered script private key: the script-key field is absent on every
path, including a successful recovery. -/
theorem ledger_pattern_b_only (c : Crypto) (s1 s2 s3 : String) :
    (∀ vk pk out p, c.privKeyFromHex s1 = .ok vk →
      c.pubKeyFromHex s2 = .ok pk →
      c.borshDeserializeOutput s3 = .ok out →
      out.script = [Opcode.PushPubKey p] →
      scan_output_for_one_sided_payment_ledger c s1 s2 s3 = no_match) ∧
    (scan_output_for_one_sided_payment_ledger c s1 s2 s3).script_key =
      none := by
  constructor
  · intro vk pk out p hv hp hb hsc
    unfold scan_output_for_one_sided_payment_ledger
    simp only [hv, hp, hb, hsc]
  · rcases scan_ledger_result_shapes c s1 s2 s3 with h | ⟨e, h⟩ | ⟨_, h⟩
    · rw [h]
      rfl
    · rw [h]
      rfl
    · exact h

theorem ledger_pattern_b_only_witness :
    scan_output_for_one_sided_payment_ledger testCrypto ("v") "p" "A" =
      no_match ∧
    (scan_output_for_one_sided_payment_ledger testCrypto ("v") "p" "L"
      ).script_key = none :=
  ⟨(ledger_pattern_b_only testCrypto ("v") "p" "A").1 1 1 outA 105 rfl rfl
     rfl rfl,
   (ledger_pattern_b_only testCrypto ("v") "p" "L").2⟩

theorem scan_full_returns (c : Crypto)
    (hfub : ∀ h64 : Hash64, c.fromUniformBytes h64 ≠ none)
    (val : Except String ScanOutput) :
    (scan_output_for_one_sided_payment c val).isSome := by
  unfold scan_output_for_one_sided_payment
  split
  · rfl
  · dsimp only
    split
    · split <;> rfl
    · split
      · rfl
      · split
        · rename_i heq
          exact absurd heq (hfub _)
        · rfl
    · rfl

/-- Claim C8: given the primitive contracts that the 64-byte stealth
domain hash always converts to a scalar and that serializing a result
record always succeeds, neither entry point reaches a panic point; and a
deserialization or key-decoding failure yields an error result (never a
recovery). -/
theorem scan_no_panic (c : Crypto)
    (hfub : ∀ h64 : Hash64, c.fromUniformBytes h64 ≠ none)
    (htv : ∀ r, c.toValue r ≠ none)
    (val : Except String ScanOutput) (s1 s2 s3 : String) :
    (scan_output_for_one_sided_payment_js c val).isSome ∧
    (scan_output_for_one_sided_payment_ledger_js c s1 s2 s3).isSome ∧
    (∀ e, val = .error e →
      scan_output_for_one_sided_payment c val =
        some (scan_error ("scan_output: " ++ e))) ∧
    (∀ e, c.privKeyFromHex s1 = .error e →
      scan_output_for_one_sided_payment_ledger c s1 s2 s3 =
        scan_error ("wallet_sk: " ++ e)) ∧
    (∀ vk e, c.privKeyFromHex s1 = .ok vk →
      c.pubKeyFromHex s2 = .error e →
      scan_output_for_one_sided_payment_ledger c s1 s2 s3 =
        scan_error ("wallet_sk: " ++ e)) ∧
    (∀ vk pk e, c.privKeyFromHex s1 = .ok vk →
      c.pubKeyFromHex s2 = .ok pk →
      c.borshDeserializeOutput s3 = .error e →
      scan_output_for_one_sided_payment_ledger c s1 s2 s3 =
        scan_error e) := by
  refine ⟨?_, ?_, ?_, ?_, ?_, ?_⟩
  · obtain ⟨r, hr⟩ := Option.isSome_iff_exists.mp (scan_full_returns c hfub val)
    unfold scan_output_for_one_sided_payment_js
    rw [hr]
    exact Option.ne_none_iff_isSome.mp (htv r)
  · unfold scan_output_for_one_sided_payment_ledger_js
    exact Option.ne_none_iff_isSome.mp (htv _)
  · intro e he
    rw [he]
    rfl
  · intro e he
    unfold scan_output_for_one_sided_payment_ledger
    simp [he]
  · intro vk e hv he
    unfold scan_output_for_one_sided_payment_ledger
    simp [hv, he]
  · intro vk pk e hv hp he
    unfold scan_output_for_one_sided_payment_ledger
    simp [hv, hp, he]

theorem scan_no_panic_witness :
    (scan_output_for_one_sided_payment_js testCrypto (.ok soB)).isSome ∧
    (scan_output_for_one_sided_payment_ledger_js testCrypto ("v") "p" "zz"
      ).isSome :=
  ⟨(scan_no_panic testCrypto (fun _ h => Option.noConfusion h)
      (fun _ h => Option.noConfusion h) (.ok soB) ("v") "p" "zz").1,
   (scan_no_panic testCrypto (fun _ h => Option.noConfusion h)
      (fun _ h => Option.noConfusion h) (.ok soB) ("v") "p" "zz").2.1⟩

/-- Claim C9: in the full-wallet scan's Pattern B path, the single wallet
secret key is the view key of the stealth domain hash, the secret behind
the public key the candidate spend key is derived against, and the scalar
of the Diffie-Hellman shared secret; and every successful Pattern B
recovery reports as script private key that same wallet secret key plus
the hash-derived scalar offset. -/
theorem stealth_same_wallet_key (c : Crypto) (so : ScanOutput)
    (nonce scanned_pk : PubKey) (off : PrivKey)
    (hs : so.output.script =
      [Opcode.PushPubKey nonce, Opcode.Drop, Opcode.PushPubKey scanned_pk])
    (heq : c.stealthSpendingKey (c.stealthDomainHasher so.wallet_sk nonce)
      (c.fromSecretKey so.wallet_sk) = scanned_pk)
    (hoff : c.fromUniformBytes (c.stealthDomainHasher so.wallet_sk nonce) =
      some off) :
    scan_output_for_one_sided_payment c (.ok so) =
      some (verify_onesided_output c so.output OutputSource.StealthOneSided
        (c.addKeys so.wallet_sk off)
        (c.dhke so.wallet_sk so.output.sender_offset_public_key)) ∧
    (∀ r, scan_output_for_one_sided_payment c (.ok so) = some r →
      r.error = none → r.value.isSome →
      r.script_key = some (c.privToHex (c.addKeys so.wallet_sk off))) := by
  have hmain : scan_output_for_one_sided_payment c (.ok so) =
      some (verify_onesided_output c so.output OutputSource.StealthOneSided
        (c.addKeys so.wallet_sk off)
        (c.dhke so.wallet_sk so.output.sender_offset_public_key)) := by
    unfold scan_output_for_one_sided_payment
    dsimp only
    rw [hs]
    simp [heq, hoff]
  refine ⟨hmain, ?_⟩
  intro r hr herr hval
  rw [hmain] at hr
  have hr2 := Option.some_inj.mp hr
  subst hr2
  rcases verify_onesided_output_shapes c so.output OutputSource.StealthOneSided
      (c.addKeys so.wallet_sk off)
      (c.dhke so.wallet_sk so.output.sender_offset_public_key) with
    h | ⟨e, h⟩ | ⟨hsucc, hkey, _⟩
  · rw [h] at hval
    simp [no_match] at hval
  · rw [h] at herr
    simp [scan_error] at herr
  · exact hkey

theorem stealth_same_wallet_key_witness :
    scan_output_for_one_sided_payment testCrypto (.ok soB) =
      some (verify_onesided_output testCrypto soB.output
        OutputSource.StealthOneSided (testCrypto.addKeys soB.wallet_sk 43)
        (testCrypto.dhke soB.wallet_sk
          soB.output.sender_offset_public_key)) ∧
    (verify_onesided_output testCrypto soB.output
        OutputSource.StealthOneSided (testCrypto.addKeys soB.wallet_sk 43)
        (testCrypto.dhke soB.wallet_sk
          soB.output.sender_offset_public_key)).script_key =
      some (testCrypto.privToHex (testCrypto.addKeys soB.wallet_sk 43)) := by
  have h := stealth_same_wallet_key testCrypto soB 2 146 43 rfl (by decide) rfl
  exact ⟨h.1, h.2 _ h.1 (by decide) (by decide)⟩

theorem scan_ledger_paths (c : Crypto) (s1 s2 s3 : String) (vk : PrivKey)
    (pk : PubKey) (out : TransactionOutput)
    (hv : c.privKeyFromHex s1 = .ok vk) (hp : c.pubKeyFromHex s2 = .ok pk)
    (hb : c.borshDeserializeOutput s3 = .ok out) :
    scan_output_for_one_sided_payment_ledger c s1 s2 s3 = no_match ∨
    scan_output_for_one_sided_payment_ledger c s1 s2 s3 =
      verify_onesided_output_ledger c out OutputSource.StealthOneSided
        (c.dhke vk out.sender_offset_public_key) := by
  unfold scan_output_for_one_sided_payment_ledger
  simp only [hv, hp, hb]
  split
  · split
    · exact Or.inl rfl
    · exact Or.inr rfl
  · exact Or.inl rfl

/-- Claim C10: the maturity field is populated only by the ledger entry
point — every full-wallet scan result has an absent maturity field, and a
successful ledger recovery reports the scanned output's features
maturity. -/
theorem maturity_field_semantics (c : Crypto)
    (val : Except String ScanOutput) (s1 s2 s3 : String) :
    (∀ r, scan_output_for_one_sided_payment c val = some r →
      r.maturity = none) ∧
    (∀ vk pk out, c.privKeyFromHex s1 = .ok vk →
      c.pubKeyFromHex s2 = .ok pk →
      c.borshDeserializeOutput s3 = .ok out →
      (scan_output_for_one_sided_payment_ledger c s1 s2 s3).error = none →
      (scan_output_for_one_sided_payment_ledger c s1 s2 s3).value.isSome →
      (scan_output_for_one_sided_payment_ledger c s1 s2 s3).maturity =
        some out.features.maturity) := by
  constructor
  · intro r hr
    rcases scan_full_result_shapes c val r hr with h | ⟨e, h⟩ | ⟨_, hm⟩
    · rw [h]
      rfl
    · rw [h]
      rfl
    · exact hm
  · intro vk pk out hv hp hb herr hval
    rcases scan_ledger_paths c s1 s2 s3 vk pk out hv hp hb with h | h
    · rw [h] at hval
      simp [no_match] at hval
    · rw [h] at herr hval ⊢
      rcases verify_onesided_output_ledger_shapes c out
          OutputSource.StealthOneSided
          (c.dhke vk out.sender_offset_public_key) with
        h2 | ⟨e, h2⟩ | ⟨_, _, hm⟩
      · rw [h2] at hval
        simp [no_match] at hval
      · rw [h2] at herr
        simp [scan_error] at herr
      · exact hm

theorem maturity_field_semantics_witness :
    no_match.maturity = none ∧
    (scan_output_for_one_sided_payment_ledger testCrypto ("v") "p" "L"
      ).maturity = some outL.features.maturity :=
  ⟨(maturity_field_semantics testCrypto (.ok soEmpty) ("v") "p" "L").1
     no_match rfl,
   (maturity_field_semantics testCrypto (.ok soEmpty) ("v") "p" "L").2 1 1
     outL rfl rfl rfl (by decide) (by decide)⟩

end TariScan
